/-
Verification of the widgetkit MCP protocol dispatcher and capability
registry (src/lib/mcp) against its natural-language specification.

The TypeScript sources are shallowly embedded: registries
(`Record<string, T>`) become insertion-ordered association lists,
JS `undefined`/absent fields become `Option`, thrown JS values become an
explicit `Thrown` type, and every dispatcher method becomes a total Lean
function returning `Except MCPError result` (the source returns `MCPError`
values which the transport turns into error envelopes).
-/
import Mathlib

set_option maxHeartbeats 1000000

namespace WidgetKit

/-- A JSON-ish value as it appears in `_meta` maps, request ids and
`params.arguments`.  `undef` models JS `undefined`. -/
inductive JVal where
  | str : String → JVal
  | num : Int → JVal
  | bool : Bool → JVal
  | null : JVal
  | undef : JVal
  deriving DecidableEq, Repr

/-- JS `x || d` for `x : string | null | undefined`: both absence and the
empty string are falsy. -/
def jsOrS : Option String → String → String
  | none, d => d
  | some s, d => if s = "" then d else s

/-- JS `String.prototype.split` with a one-character separator, on char
lists (`"".split(sep)` is `[""]`). -/
def splitOn1 (sep : Char) : List Char → List (List Char)
  | [] => [[]]
  | c :: rest =>
    let r := splitOn1 sep rest
    if c = sep then [] :: r
    else
      match r with
      | [] => [[c]]
      | h :: t => (c :: h) :: t

/-- JS `String.prototype.split` with a two-character separator
(leftmost, non-overlapping matches). -/
def splitOn2 (a b : Char) : List Char → List (List Char)
  | [] => [[]]
  | [c] => [[c]]
  | c :: d :: rest =>
    if c = a ∧ d = b then [] :: splitOn2 a b rest
    else
      match splitOn2 a b (d :: rest) with
      | [] => [[c]]
      | h :: t => (c :: h) :: t

/-- JS `s.split(sep)` for a single-character separator. -/
def jsSplitChar (s : String) (sep : Char) : List String :=
  (splitOn1 sep s.data).map fun l => String.mk l

/-- JS `s.split("//")`. -/
def jsSplitSlashSlash (s : String) : List String :=
  (splitOn2 '/' '/' s.data).map fun l => String.mk l

/-- JS `s.startsWith(p)`. -/
def strStartsWith (s p : String) : Bool :=
  p.data.isPrefixOf s.data

/-- JS `s.includes(sub)`: `sub` occurs somewhere in `s`. -/
def strIncludes (s sub : String) : Bool :=
  (List.range (s.data.length + 1)).any fun i => sub.data.isPrefixOf (s.data.drop i)

/-- A JS object used as a string-keyed metadata bag (`_meta`), kept as the
ordered list of its assignments; a later assignment to the same key
overrides an earlier one, so `{...a, ...b}` is `a ++ b`. -/
abbrev Meta := List (String × JVal)

/-- Key lookup in a metadata bag: the last assignment wins, as for JS
object spreads. -/
def metaLookup : Meta → String → Option JVal
  | [], _ => none
  | p :: rest, k =>
    match metaLookup rest k with
    | some v => some v
    | none => if p.1 = k then some p.2 else none

/-- The six protocol error kinds of `errors.ts`. -/
inductive MCPCode where
  | PARSE_ERROR
  | RESOURCE_NOT_FOUND
  | INVALID_REQUEST
  | METHOD_NOT_FOUND
  | INVALID_PARAMS
  | INTERNAL_ERROR
  deriving DecidableEq, Repr

/-- Modelled from the spec: the numeric error codes live in
`types/spec.ts`, which is not under `src/`; spec section 6 fixes a distinct
negative numeric code per kind (the JSON-RPC standard assignment). -/
def mcpCodeNum : MCPCode → Int
  | .PARSE_ERROR => -32700
  | .RESOURCE_NOT_FOUND => -32002
  | .INVALID_REQUEST => -32600
  | .METHOD_NOT_FOUND => -32601
  | .INVALID_PARAMS => -32602
  | .INTERNAL_ERROR => -32603

/-- `defaultErrorMessages` of `errors.ts`. -/
def defaultErrorMessage : MCPCode → String
  | .PARSE_ERROR => "Parse error"
  | .RESOURCE_NOT_FOUND => "Resource not found"
  | .INVALID_REQUEST => "Invalid request"
  | .METHOD_NOT_FOUND => "Method not found"
  | .INVALID_PARAMS => "Invalid parameters"
  | .INTERNAL_ERROR => "Internal error"

/-- The `MCPError` class of `errors.ts` (fields `~code`, `~message`,
`~data`); the kind is kept as the enum rather than its numeric rendering. -/
structure MCPError where
  code : MCPCode
  message : String
  data : Option JVal := none
  deriving DecidableEq, Repr

/-- `mcpError(code)` with the default message. -/
def mcpError (code : MCPCode) : MCPError :=
  { code := code, message := defaultErrorMessage code }

/-- A value thrown by JS code, as the catch sites of the dispatcher
distinguish them: an `MCPError`, a plain `Error` carrying a message, the
`ToolError` sentinel, or any non-`Error` value. -/
inductive Thrown where
  | mcpErr : MCPError → Thrown
  | jsError : String → Thrown
  | toolErr : Option String → Thrown
  | nonError : Thrown
  deriving DecidableEq, Repr

/-- A content block of a `CallToolResult` (`types/spec`). -/
inductive ContentBlock where
  | text : String → ContentBlock
  | image : String → String → ContentBlock
  | audio : String → String → ContentBlock
  deriving DecidableEq, Repr

/-- A `CallToolResult`: `isError`/`structuredContent`/`_meta` are absent
unless set (JS `undefined`), hence `Option` and an empty default bag. -/
structure CallToolResult where
  content : List ContentBlock
  isError : Option Bool := none
  structuredContent : Option JVal := none
  meta : Meta := []
  deriving DecidableEq, Repr

/-- The JSON-schema object shape `toJsonSchema` (`utils/toJsonSchema.ts`)
yields for an opaque schema: a root-`object` schema whose `properties`
(name → optional description) and `required` lists may each be absent.
The vendor conversion itself is external library code
(`@valibot/to-json-schema`, zod, arktype, effect), so its result is
carried as data on the `Schema` record. -/
structure JsonSchemaObj where
  properties : Option (List (String × Option String)) := none
  required : Option (List String) := none
  deriving DecidableEq, Repr

/-- An opaque validation schema (`ToolConfig.schema` of `tools.ts`,
`PromptConfig.schema` of `prompts.ts`): what the dispatcher sees of it is
`validateInput(schema, input)`, which either yields the validated value
or throws, and its JSON-schema rendering via `toJsonSchema` (carried as
data, see `JsonSchemaObj`). -/
structure Schema where
  validate : Option JVal → Except Thrown JVal
  jsonSchema : JsonSchemaObj := {}

/-- The possible return values of a tool handler, as `Tool['~call']`
discriminates them: the `ToolError` sentinel, a (resolved) `BlobResult`
whose content carries a mime type and data string, a plain string, or any
other value (clause order as in `tools.ts:63-94`; `ResourceResult`
instances are not discriminated there, so they fall under `other` and are
not modelled separately).  `blob` data is carried as the final data string
produced by `toDataUrl` (strings pass through it unchanged). -/
inductive ToolReturn where
  | toolError : Option String → ToolReturn
  | blob : String → String → Option Meta → ToolReturn
  | str : String → ToolReturn
  | other : JVal → ToolReturn

/-- A tool handler either returns a value or throws. -/
inductive ToolOutcome where
  | ret : ToolReturn → ToolOutcome
  | thrown : Thrown → ToolOutcome

/-!
A `Widget` (`widget.ts`): identity plus the author-supplied options.
-/
structure Widget where
  id : String
  name : String
  invoking : String
  invoked : String
  description : String
  prefersBorder : Bool
  deriving DecidableEq, Repr

/-- `Widget.toolMetadata` of `widget.ts`. -/
def Widget.toolMetadata (w : Widget) : Meta :=
  [ ("openai/outputTemplate", JVal.str ("widget://" ++ w.id ++ ".js")),
    ("openai/toolInvocation/invoking", JVal.str w.invoking),
    ("openai/toolInvocation/invoked", JVal.str w.invoked),
    ("openai/widgetAccessible", JVal.bool false),
    ("openai/resultCanProduceWidget", JVal.bool true) ]

/-- The `ToolConfig` record of `tools.ts` (the state a `Tool` builder has
accumulated by registration time).  The handler is modelled as a function
of the validated input; the `event: RequestEvent` argument it also
receives is external transport state and is not modelled.
`annotations` is an opaque pass-through hint record no claim examines and
is omitted. -/
structure ToolDef where
  description : String
  schema : Option Schema := none
  output : Option Schema := none
  handler : Option (Option JVal → ToolOutcome) := none
  meta : Meta := []
  title : Option String := none
  widget : Option Widget := none

/-- `ToolError.result` of `tools.ts:174-187` (`this.message || '...'`). -/
def toolErrorResult (m : Option String) : CallToolResult :=
  { content := [ContentBlock.text (jsOrS m "An error occurred during tool execution")],
    isError := some true }

/-- Modelled from the spec: `safeStringify` lives in `utils/utils.ts`,
which is not under `src/`; spec section 4.2 only says any other handler
return value "is stringified into a text block".  No claim examines the
produced text. -/
def safeStringify : JVal → String
  | .str s => "\x22" ++ s ++ "\x22"
  | .num n => toString n
  | .bool b => toString b
  | .null => "null"
  | .undef => "undefined"

/-- `Tool['~call']` of `tools.ts:48-102`: run the handler, shape its
return value, and catch every throw (the `ToolError` sentinel keeps its
own result; anything else becomes a generic `ToolError` result from
`err instanceof Error ? err.message || 'Unknown error' : 'Unknown error'`).
An absent handler leaves `result` as JS `undefined`. -/
def toolCall (t : ToolDef) (input : Option JVal) : CallToolResult :=
  let outcome :=
    match t.handler with
    | none => ToolOutcome.ret (.other .undef)
    | some h => h input
  match outcome with
  | .ret (.toolError m) => toolErrorResult m
  | .ret (.blob mimeType data m) =>
    { content := [if strStartsWith mimeType "audio/" then ContentBlock.audio mimeType data
                  else ContentBlock.image mimeType data],
      meta := m.getD [] }
  | .ret (.str s) => { content := [ContentBlock.text s] }
  | .ret (.other v) =>
    { content := [ContentBlock.text (safeStringify v)],
      structuredContent := if t.output.isSome then some v else none }
  | .thrown (.toolErr m) => toolErrorResult m
  | .thrown (.jsError msg) => toolErrorResult (some (jsOrS (some msg) "Unknown error"))
  | .thrown (.mcpErr e) => toolErrorResult (some (jsOrS (some e.message) "Unknown error"))
  | .thrown .nonError => toolErrorResult (some "Unknown error")

/-- `Tool['~validate']` of `tools.ts:104-111`: no schema means the
validated payload is JS `undefined`; otherwise the schema validates (and
may throw). -/
def toolValidate (t : ToolDef) (input : Option JVal) : Except Thrown (Option JVal) :=
  match t.schema with
  | none => Except.ok none
  | some s => (s.validate input).map some

/-- The protocol `Tool` descriptor produced by `defineTool`
(`tools.ts:157-172`).  The `inputSchema`/`outputSchema` JSON renderings
(`toJsonSchema`) and `annotations` are not examined by any claim and are
omitted. -/
structure SpecToolDesc where
  name : String
  description : String
  meta : Meta
  title : Option String
  deriving DecidableEq, Repr

/-- `defineTool` of `tools.ts:157-172`: the descriptor `_meta` is
`{...meta, ...(widget?.toolMetadata || {})}` — own metadata spread first,
widget metadata second. -/
def defineTool (name : String) (t : ToolDef) : SpecToolDesc :=
  { name := name,
    description := t.description,
    meta := t.meta ++ (match t.widget with
      | some w => w.toolMetadata
      | none => []),
    title := t.title }

/-- `defineTools` of `tools.ts:151-155`. -/
def defineTools (tools : List (String × ToolDef)) : List SpecToolDesc :=
  tools.map fun p => defineTool p.1 p.2

/-- One entry of `ReadResourceResult.contents`. -/
structure ResourceContent where
  uri : String
  mimeType : Option String := none
  text : String
  meta : Meta := []
  deriving DecidableEq, Repr

/-- A `ReadResourceResult` (`types/spec`). -/
structure ReadResourceResult where
  contents : List ResourceContent
  deriving DecidableEq, Repr

/-- The four binary payload classes `Resource['~call']` recognizes
(`resources.ts:67-70`). -/
inductive BinKind where
  | blob
  | arrayBuffer
  | file
  | uint8Array
  deriving DecidableEq, Repr

/-- Return values of a resource handler, as `Resource['~call']`
discriminates them: a string, a binary payload (carried as the base64
encoding of its bytes), a `ReadResourceResult` (allowed by the handler
type but not discriminated, so it falls to the final clause), or any
other value. -/
inductive ResReturn where
  | str : String → ResReturn
  | bin : BinKind → String → ResReturn
  | readRes : ReadResourceResult → ResReturn
  | other : JVal → ResReturn

/-- The `ResourceConfig` record of `resources.ts` (builder state at
registration time).  The source field `type` is named `mimeType` here
(`type` is reserved in Lean); handlers are modelled as non-throwing
functions of `(uri, sessionId)`. -/
structure ResourceDef where
  name : String
  mimeType : Option String := none
  uri : Option String := none
  description : Option String := none
  handler : Option (String → String → ResReturn) := none
  meta : Meta := []

/-- `Resource['~call']` of `resources.ts:52-88`: a string becomes a text
entry tagged with the declared mime type; a binary payload becomes a
base64 data URL but only when a mime type was declared (else
`INTERNAL_ERROR` with message "Resource mimeType not set"); anything else
yields `RESOURCE_NOT_FOUND`.  An absent handler leaves the result as JS
`undefined`. -/
def resourceCall (r : ResourceDef) (uri sessionId : String) : Except MCPError ReadResourceResult :=
  let result : ResReturn :=
    match r.handler with
    | none => .other .undef
    | some h => h uri sessionId
  match result with
  | .str s =>
    .ok { contents := [{ uri := uri, mimeType := r.mimeType, text := s }] }
  | .bin _ b64 =>
    match r.mimeType with
    | none =>
      .error { code := .INTERNAL_ERROR, message := "Resource mimeType not set",
               data := some (.str uri) }
    | some mt =>
      .ok { contents := [{ uri := uri, mimeType := some mt,
                           text := "data:" ++ mt ++ ";base64," ++ b64 }] }
  | .readRes _ => .error (mcpError .RESOURCE_NOT_FOUND)
  | .other _ => .error (mcpError .RESOURCE_NOT_FOUND)

/-- `isTemplate` of `resources.ts:122-125` — the test of the regex
`\x7b[^\x7b\x7d]*\x7d` (an opening brace later closed before any further
brace): scan the characters tracking whether an open brace is pending. -/
def isTemplateAux : List Char → Bool → Bool
  | [], _ => false
  | c :: rest, inBrace =>
    if c = '{' then isTemplateAux rest true
    else if c = '}' then (if inBrace then true else isTemplateAux rest false)
    else isTemplateAux rest inBrace

/-- A resource URI is a template when it contains a brace-delimited
placeholder. -/
def isTemplate (uri : String) : Bool :=
  isTemplateAux uri.data false

/-- The protocol `Resource`/`ResourceTemplate` descriptor (`defineResource`
and `defineResourceTemplate` build the same fields; the template one names
its URI field `uriTemplate`). -/
structure SpecResourceDesc where
  name : String
  uri : String
  description : Option String := none
  mimeType : Option String := none
  meta : Meta := []
  deriving DecidableEq, Repr

/-- `defineResource` of `resources.ts:145-155` (`uri: uri || name`). -/
def defineResource (name : String) (r : ResourceDef) : SpecResourceDesc :=
  { name := name, uri := jsOrS r.uri name, description := r.description,
    mimeType := r.mimeType, meta := r.meta }

/-- `defineResources` of `resources.ts:127-134`: only non-template
resources are listed. -/
def defineResources (resources : List (String × ResourceDef)) : List SpecResourceDesc :=
  (resources.filter fun p => !isTemplate (jsOrS p.2.uri "")).map fun p =>
    defineResource p.1 p.2

/-- `defineResourceTemplates` of `resources.ts:136-143`: only template
resources are listed. -/
def defineResourceTemplates (resources : List (String × ResourceDef)) : List SpecResourceDesc :=
  (resources.filter fun p => isTemplate (jsOrS p.2.uri "")).map fun p =>
    defineResource p.1 p.2

/-- The HTML bootstrap document of `Widget.result` (`widget.ts`), a pure
function of the domain and the widget option name (the nonce is computed
inside the emitted script, not interpolated).  Surrounding whitespace of
the source template literal is normalized; every token is kept. -/
def widgetHtml (domain wname : String) : String :=
  String.intercalate "\n" [
    "<html>",
    "<head>",
    "<script>",
    "const reloadWidget = () => \x7b",
    "const previousScript = document.getElementById(\x22widget-script\x22);",
    "if (previousScript) \x7b",
    "document.body.innerHTML = \x27\x27;",
    "previousScript.remove();",
    "\x7d",
    "const script = document.createElement(\x27script\x27);",
    "script.id = \x22widget-script\x22;",
    "const nonce = Math.random().toString(36).substring(2);",
    "script.src = \x27" ++ domain ++ "/widgets/" ++ wname ++ ".js?v=\x27 + nonce;",
    "script.nonce = nonce;",
    "document.head.appendChild(script);",
    "\x7d;",
    "reloadWidget();",
    "window.reloadWidget = reloadWidget;",
    "</script>",
    "</head>",
    "<body></body>",
    "</html>" ]

/-- `Widget.result` of `widget.ts:44-84`: a single content entry at uri
`widget://{id}` (no `.js`), mime `text/html+skybridge`, the bootstrap
HTML, and the widget `_meta` (`description || 'A widget'`,
`prefersBorder || false`). -/
def Widget.result (w : Widget) (domain : String) : ReadResourceResult :=
  { contents := [
      { uri := "widget://" ++ w.id,
        mimeType := some "text/html+skybridge",
        text := widgetHtml domain w.name,
        meta := [
          ("openai/widgetDescription", JVal.str (jsOrS (some w.description) "A widget")),
          ("openai/widgetPrefersBorder", JVal.bool w.prefersBorder),
          ("openai/widgetDomain", JVal.str domain) ] } ] }

/-- `Widget.resource` of `widget.ts:20-32`: the derived `Resource`
definition addressable at `widget://{id}.js`, whose handler returns
`this.result(domain)` (a `ReadResourceResult`). -/
def Widget.resource (w : Widget) (domain : String) : ResourceDef :=
  { name := w.name,
    description := some w.description,
    uri := some ("widget://" ++ w.id ++ ".js"),
    mimeType := some "text/html+skybridge",
    meta := [
      ("openai/widgetDescription", JVal.str w.description),
      ("openai/widgetPrefersBorder", JVal.bool w.prefersBorder) ],
    handler := some fun _ _ => ResReturn.readRes (w.result domain) }

/-- `defineWidgets` of `widget.ts:89-93`: each widget listed as the
resource descriptor of its derived resource, keyed by the widget id. -/
def defineWidgets (widgets : List (String × Widget)) (domain : String) : List SpecResourceDesc :=
  widgets.map fun p => defineResource p.2.id (p.2.resource domain)

/-- The record a prompt handler resolves to (`HandlePromptPayload` of
`prompts.ts`): `{description?, role?, text}`. -/
structure PromptOut where
  description : Option String := none
  text : String
  role : Option String := none

/-- The possible return values of a prompt handler: the
`{description?, role?, text}` record, or an `MCPError` built with the
`error` helper the payload carries (which `prompts.get` checks for with
`instanceof`). -/
inductive PromptReturn where
  | out : PromptOut → PromptReturn
  | err : MCPError → PromptReturn

/-- A prompt handler either returns a value or throws. -/
inductive PromptOutcome where
  | ret : PromptReturn → PromptOutcome
  | thrown : Thrown → PromptOutcome

/-- The `PromptConfig` record of `prompts.ts` (builder state at
registration time): description, optional schema, optional handler.  The
handler is modelled as a function of the validated input and the session
id (the `error` helper of its payload is covered by
`PromptReturn.err`). -/
structure PromptDef where
  description : String
  schema : Option Schema := none
  handler : Option (Option JVal → String → PromptOutcome) := none

/-- `Prompt['~validate']` of `prompts.ts`: no schema means the validated
payload is JS `undefined`; otherwise the schema validates (and may
throw). -/
def promptValidate (p : PromptDef) (input : Option JVal) : Except Thrown (Option JVal) :=
  match p.schema with
  | none => Except.ok none
  | some s => (s.validate input).map some

/-- `Prompt['~call']` of `prompts.ts`:
`this['~config'].handler?.({input, sessionId, error})` — an absent
handler yields JS `undefined` (`Except.ok none`); a present handler
either returns a value or throws, and a throw propagates to the caller
(there is no catch in `'~call'`). -/
def promptCall (p : PromptDef) (input : Option JVal) (sessionId : String) :
    Except Thrown (Option PromptReturn) :=
  match p.handler with
  | none => .ok none
  | some h =>
    match h input sessionId with
    | .ret r => .ok (some r)
    | .thrown th => .error th

/-- One entry of a prompt descriptor's `arguments` list. -/
structure SpecPromptArg where
  name : String
  description : String
  required : Bool
  deriving DecidableEq, Repr

/-- The protocol `Prompt` descriptor produced by `definePrompt`
(`prompts.ts`). -/
structure SpecPromptDesc where
  name : String
  description : String
  arguments : List SpecPromptArg
  deriving DecidableEq, Repr

/-- `definePrompt` of `prompts.ts`: the argument list comes from the
schema's JSON rendering (`{type:'object', properties:{}, required:[]}`
when no schema is set), each flagged required via
`required?.some(r => r === key) ?? false` and described via
`value.description ?? ''`. -/
def definePrompt (name : String) (p : PromptDef) : SpecPromptDesc :=
  let jsonSchema : JsonSchemaObj :=
    match p.schema with
    | some s => s.jsonSchema
    | none => { properties := some [], required := some [] }
  { name := name,
    description := p.description,
    arguments := (jsonSchema.properties.getD []).map fun kv =>
      { name := kv.1,
        description := kv.2.getD "",
        required :=
          match jsonSchema.required with
          | some req => req.any fun r => r == kv.1
          | none => false } }

/-- `definePrompts` of `prompts.ts`. -/
def definePrompts (prompts : List (String × PromptDef)) : List SpecPromptDesc :=
  prompts.map fun p => definePrompt p.1 p.2

/-- One `prompts/get` message. -/
structure PromptMessage where
  role : String
  content : ContentBlock
  deriving DecidableEq, Repr

/-- A `GetPromptResult`. -/
structure GetPromptResult where
  description : Option String := none
  messages : List PromptMessage
  deriving DecidableEq, Repr

/-- The `MCPServer` configuration (`types/index.ts`): registries are
JS `Record`s, modelled as insertion-ordered association lists; an absent
registry is the empty list. -/
structure MCPServer where
  name : String
  version : String
  domain : Option String := none
  tools : List (String × ToolDef) := []
  prompts : List (String × PromptDef) := []
  resources : List (String × ResourceDef) := []
  widgets : List (String × Widget) := []

/-- JS `registry?.[name]`: indexing a record with a possibly-undefined
name (an undefined name never hits a key). -/
def lookupReg {α : Type} (reg : List (String × α)) : Option String → Option α
  | none => none
  | some n => (reg.find? fun p => p.1 == n).map fun p => p.2

/-- `prompts.get` of `handler.ts:148-181`: gate on a non-empty prompt
registry, look up by name, validate (only `'~validate'` sits in a try: a
thrown `MCPError` passes through, any other throw becomes
`INTERNAL_ERROR`), then `await prompt['~call']` — a handler throw
propagates uncaught out of `prompts.get`, and when `'~call'` yields
`undefined` (no handler configured) the read of `result.description`
throws a TypeError (its engine-specific message is never observed: the
transport catch discards the thrown value) — an `MCPError` result passes
through, and anything else is shaped into the message list
(`role || 'assistant'`). -/
def promptsGet (srv : MCPServer) (sessionId : String) (name : Option String)
    (args : Option JVal) : Except Thrown (Except MCPError GetPromptResult) :=
  if srv.prompts.isEmpty then .ok (.error (mcpError .METHOD_NOT_FOUND))
  else
    match lookupReg srv.prompts name with
    | none => .ok (.error (mcpError .METHOD_NOT_FOUND))
    | some p =>
      match promptValidate p args with
      | .error (.mcpErr e) => .ok (.error e)
      | .error _ => .ok (.error (mcpError .INTERNAL_ERROR))
      | .ok v =>
        match promptCall p v sessionId with
        | .error th => .error th
        | .ok none =>
          .error (.jsError "Cannot read properties of undefined (reading \x27description\x27)")
        | .ok (some (.err e)) => .ok (.error e)
        | .ok (some (.out r)) =>
          .ok (.ok { description := r.description,
                     messages := [{ role := jsOrS r.role "assistant",
                                    content := .text r.text }] })

/-- `prompts.list` of `handler.ts:182-189`, gated on a non-empty prompt
registry. -/
def promptsList (srv : MCPServer) : Except MCPError (List SpecPromptDesc) :=
  if srv.prompts.isEmpty then .error (mcpError .METHOD_NOT_FOUND)
  else .ok (definePrompts srv.prompts)

/-- `resources.list` of `handler.ts:192-203`, gated on both the resource
and widget registries being empty. -/
def resourcesList (srv : MCPServer) (domain : String) : Except MCPError (List SpecResourceDesc) :=
  if srv.resources.isEmpty ∧ srv.widgets.isEmpty then .error (mcpError .METHOD_NOT_FOUND)
  else
    let resources := if !srv.resources.isEmpty then defineResources srv.resources else []
    let widgets := if !srv.widgets.isEmpty then defineWidgets srv.widgets domain else []
    .ok (resources ++ widgets)

/-- `resources.templates.list` of `handler.ts:204-214`, gated on a
non-empty resource registry (widgets do not lift this gate). -/
def templatesList (srv : MCPServer) : Except MCPError (List SpecResourceDesc) :=
  if srv.resources.isEmpty then .error (mcpError .METHOD_NOT_FOUND)
  else .ok (defineResourceTemplates srv.resources)

/-- The token `handler.ts:223` strips from a `widget://` read uri:
`uri.split('//')[1].split('.')[0]`. -/
def stripWidgetToken (uri : String) : String :=
  (jsSplitChar ((jsSplitSlashSlash uri).getD 1 "") '.').headD ""

/-- `resources.read` of `handler.ts:215-252`: gate on both registries
empty; a `widget://` uri resolves to the first registered widget whose id
contains the stripped token as a substring and returns
`widget.result(domain)`; otherwise the first resource whose configured uri
equals the request uri exactly, else the first resource whose configured
uri is a template (regardless of structural match), else
`RESOURCE_NOT_FOUND`. -/
def resourcesRead (srv : MCPServer) (domain sessionId uri : String) :
    Except MCPError ReadResourceResult :=
  if srv.resources.isEmpty ∧ srv.widgets.isEmpty then .error (mcpError .METHOD_NOT_FOUND)
  else if strStartsWith uri "widget://" then
    match srv.widgets.find? (fun p => strIncludes p.2.id (stripWidgetToken uri)) with
    | none => .error (mcpError .RESOURCE_NOT_FOUND)
    | some p => .ok (p.2.result domain)
  else
    match srv.resources.find? (fun p => p.2.uri == some uri) with
    | some p => resourceCall p.2 uri sessionId
    | none =>
      match srv.resources.find? (fun p => isTemplate (jsOrS p.2.uri "")) with
      | some p => resourceCall p.2 uri sessionId
      | none => .error (mcpError .RESOURCE_NOT_FOUND)

/-- `tools.call` of `handler.ts:260-292`: gate on a non-empty tool
registry, look up by name, validate (a thrown `MCPError` passes through,
any other throw becomes `INVALID_PARAMS`), run `Tool['~call']`, and when
the tool is linked to a widget merge `{...result._meta,
...widget.toolMetadata}` into the result. -/
def toolsCall (srv : MCPServer) (sessionId : String) (name : Option String)
    (args : Option JVal) : Except MCPError CallToolResult :=
  if srv.tools.isEmpty then .error (mcpError .METHOD_NOT_FOUND)
  else
    match lookupReg srv.tools name with
    | none => .error (mcpError .METHOD_NOT_FOUND)
    | some t =>
      match toolValidate t args with
      | .error (.mcpErr e) => .error e
      | .error _ => .error (mcpError .INVALID_PARAMS)
      | .ok v =>
        let result := toolCall t v
        match t.widget with
        | some w => .ok { result with meta := result.meta ++ w.toolMetadata }
        | none => .ok result

/-- `tools.list` of `handler.ts:293-300`, gated on a non-empty tool
registry. -/
def toolsList (srv : MCPServer) : Except MCPError (List SpecToolDesc) :=
  if srv.tools.isEmpty then .error (mcpError .METHOD_NOT_FOUND)
  else .ok (defineTools srv.tools)

/-- The `initialize` result (`handler.ts:107-141`): server info, the fixed
protocol version, and capability flags only for non-empty registries
(resources also when widgets are non-empty). -/
structure InitResult where
  serverName : String
  serverVersion : String
  protocolVersion : String
  capTools : Bool
  capResources : Bool
  capPrompts : Bool
  deriving DecidableEq, Repr

/-- The `initialize` handler. -/
def initHandler (srv : MCPServer) : InitResult :=
  { serverName := srv.name, serverVersion := srv.version,
    protocolVersion := "2025-06-18",
    capTools := !srv.tools.isEmpty,
    capResources := !srv.resources.isEmpty || !srv.widgets.isEmpty,
    capPrompts := !srv.prompts.isEmpty }

/-!
The transport layer (`index.ts`, `errors.ts:48-68`,
`utils/handleGetDelete.ts`).  `OPTIONS`/CORS preflight is out of scope
(spec section 1) and not modelled; neither is the SSE streaming branch,
which is commented out in the source.
-/

/-- The HTTP methods the endpoint distinguishes (besides OPTIONS). -/
inductive HttpMethod where
  | GET
  | POST
  | DELETE
  deriving DecidableEq, Repr

/-- The request `params` object, carrying the fields the handlers read.
An absent field is JS `undefined`. -/
structure Params where
  name : Option String := none
  arguments : Option JVal := none
  uri : Option String := none

/-- A parsed JSON-RPC request body. -/
structure RpcReq where
  method : String
  params : Params := {}
  id : JVal := .null

/-- An inbound HTTP request at `/mcp`: method, the `Mcp-Session-Id`
header (absent maps to JS `null`), and the body — `none` models a body
that fails JSON parsing. -/
structure HttpRequest where
  method : HttpMethod
  sessionHeader : Option String := none
  body : Option RpcReq := none

/-- The result value of one dispatcher method, as serialized into the
success envelope. -/
inductive RpcResult where
  | initR : InitResult → RpcResult
  | emptyR : RpcResult
  | toolListR : List SpecToolDesc → RpcResult
  | toolCallR : CallToolResult → RpcResult
  | promptListR : List SpecPromptDesc → RpcResult
  | promptGetR : GetPromptResult → RpcResult
  | resourceListR : List SpecResourceDesc → RpcResult
  | templListR : List SpecResourceDesc → RpcResult
  | readR : ReadResourceResult → RpcResult
  deriving DecidableEq, Repr

/-- The JSON body of an HTTP response: a success envelope
`{jsonrpc, id, result}`, an error envelope `{jsonrpc, id:null,
error:{code, message, data}}` (the code as its numeric rendering), or
nothing else — the 405 body is an error envelope with code `-32000`. -/
inductive RespBody where
  | success : JVal → RpcResult → RespBody
  | rpcError : Int → String → Option JVal → RespBody
  deriving DecidableEq, Repr

/-- An HTTP response: status, headers in emission order, body. -/
structure HttpResponse where
  status : Nat
  headers : List (String × String)
  body : RespBody
  deriving DecidableEq, Repr

/-- `errorResponse` of `errors.ts:48-68`: status 400, content type and
session header, error envelope with `id:null`. -/
def errorResponse (e : MCPError) (sessionId : String) : HttpResponse :=
  { status := 400,
    headers := [("Content-Type", "application/json"), ("Mcp-Session-Id", sessionId)],
    body := .rpcError (mcpCodeNum e.code) e.message e.data }

/-- `handleGetDeleteMethodNotAllowed` of `utils/handleGetDelete.ts`:
status 405, a fixed `-32000` error envelope, and only a content-type
header — no session header. -/
def handleGetDeleteMethodNotAllowed : HttpResponse :=
  { status := 405,
    headers := [("Content-Type", "application/json")],
    body := .rpcError (-32000) "Method not allowed." none }

/-- The success response of `index.ts:72-81`: default status 200, content
type and session header, success envelope echoing the request id. -/
def successResponse (id : JVal) (r : RpcResult) (sessionId : String) : HttpResponse :=
  { status := 200,
    headers := [("Content-Type", "application/json"), ("Mcp-Session-Id", sessionId)],
    body := .success id r }

/-- A node of the `mpcHandler` table: a callable leaf (which may itself
throw, e.g. on malformed params) or a plain object of named children. -/
inductive HNode where
  | leaf : (Params → Except Thrown (Except MCPError RpcResult)) → HNode
  | node : List (String × HNode) → HNode

/-- The `mpcHandler` table of `handler.ts:105-306`, with keys in source
order.  The optional `completion`/`logging`/`subscribe`/`unsubscribe`
entries are never assigned in the source and therefore absent. -/
def mpcHandler (srv : MCPServer) (domain sessionId : String) : HNode :=
  .node [
    ("initialize", .leaf fun _ => .ok (.ok (.initR (initHandler srv)))),
    ("notifications", .node [
      ("initialized", .leaf fun _ => .ok (.ok .emptyR))]),
    ("prompts", .node [
      ("get", .leaf fun p =>
        (promptsGet srv sessionId p.name p.arguments).map fun r => r.map .promptGetR),
      ("list", .leaf fun _ => .ok ((promptsList srv).map .promptListR))]),
    ("resources", .node [
      ("list", .leaf fun _ => .ok ((resourcesList srv domain).map .resourceListR)),
      ("templates", .node [
        ("list", .leaf fun _ => .ok ((templatesList srv).map .templListR))]),
      ("read", .leaf fun p =>
        match p.uri with
        | none => .error .nonError
        | some u => .ok ((resourcesRead srv domain sessionId u).map .readR))]),
    ("tools", .node [
      ("call", .leaf fun p => .ok ((toolsCall srv sessionId p.name p.arguments).map .toolCallR)),
      ("list", .leaf fun _ => .ok ((toolsList srv).map .toolListR))]),
    ("ping", .leaf fun _ => .ok (.ok .emptyR))]

/-- The resolution loop of `index.ts:41-45`: walk the method segments,
descending only when the segment is a key of the current node — on a miss
the current value is kept unchanged (which is why the `!handlerMethod`
guard at `index.ts:47` can never fire: the walk never produces an
undefined value).  Descending into prototype-inherited keys of a function
leaf (e.g. `"call" in f`) is not modelled; no claim exercises it. -/
def resolveMethod (root : HNode) (segments : List String) : HNode :=
  segments.foldl (fun cur key =>
    match cur with
    | HNode.node children =>
      match children.find? (fun c => c.1 == key) with
      | some c => c.2
      | none => cur
    | HNode.leaf f => HNode.leaf f) root

/-- `await handlerMethod(params, event)` at `index.ts:52`: calling a plain
object (a `node`) throws a `TypeError` — a non-`Error`-sentinel throw the
surrounding `try` turns into `INTERNAL_ERROR`. -/
def invokeNode : HNode → Params → Except Thrown (Except MCPError RpcResult)
  | .leaf f, p => f p
  | .node _, _ => .error .nonError

/-- `handleMCP` of `index.ts:13-92` on the `/mcp` path: GET/DELETE get the
fixed 405; otherwise the session id is the header or a fresh one
(`headers.get(...) || crypto.randomUUID()`, the fresh value passed in as
`freshSessionId`); a body that fails to parse yields `PARSE_ERROR`; the
method path is resolved and invoked, an `MCPError` result becomes an error
envelope, a throw becomes `INTERNAL_ERROR`, anything else the success
envelope.  The domain is `server.domain || event.url.origin`. -/
def handleMCP (srv : MCPServer) (origin freshSessionId : String) (req : HttpRequest) :
    HttpResponse :=
  match req.method with
  | .GET => handleGetDeleteMethodNotAllowed
  | .DELETE => handleGetDeleteMethodNotAllowed
  | .POST =>
    let sessionId := jsOrS req.sessionHeader freshSessionId
    match req.body with
    | none => errorResponse (mcpError .PARSE_ERROR) sessionId
    | some rpc =>
      let domain := jsOrS srv.domain origin
      let node := resolveMethod (mpcHandler srv domain sessionId) (jsSplitChar rpc.method '/')
      match invokeNode node rpc.params with
      | .error _ => errorResponse (mcpError .INTERNAL_ERROR) sessionId
      | .ok (.error e) => errorResponse e sessionId
      | .ok (.ok r) => successResponse rpc.id r sessionId

/-!
Concrete servers, tools, prompts, resources and widgets used by the
witness and counterexample theorems below.
-/

/-- A sample tool whose handler returns a plain string. -/
def greetTool : ToolDef :=
  { description := "greets", handler := some fun _ => ToolOutcome.ret (.str "Hello") }

/-- A sample server with one tool. -/
def sampleServer : MCPServer :=
  { name := "srv", version := "1", tools := [("greet", greetTool)] }

/-- A server with every registry empty. -/
def emptyServer : MCPServer := { name := "empty", version := "1" }

/-- A handler that throws an `Error` whose message is the empty string. -/
def c2emptyHandler : Option JVal → ToolOutcome := fun _ => ToolOutcome.thrown (.jsError "")

/-- A tool built on `c2emptyHandler`. -/
def c2emptyTool : ToolDef := { description := "boom", handler := some c2emptyHandler }

/-- A server registering `c2emptyTool` under `"t"`. -/
def c2emptyServer : MCPServer := { name := "s", version := "1", tools := [("t", c2emptyTool)] }

/-- A handler that throws an `Error` with message `"boom"`. -/
def c2boomHandler : Option JVal → ToolOutcome := fun _ => ToolOutcome.thrown (.jsError "boom")

/-- A tool built on `c2boomHandler`. -/
def c2boomTool : ToolDef := { description := "b", handler := some c2boomHandler }

/-- A server registering `c2boomTool` under `"t"`. -/
def c2boomServer : MCPServer := { name := "s", version := "1", tools := [("t", c2boomTool)] }

/-- The message extracted from a thrown value by
`err instanceof Error ? err.message : <none>` (both `MCPError` and plain
`Error` are `Error` instances). -/
def thrownMessage : Thrown → Option String
  | .jsError m => some m
  | .mcpErr e => some e.message
  | .toolErr m => m
  | .nonError => none

/-- The widget used by the C3 witness. -/
def c3Widget : Widget :=
  { id := "greeting", name := "G", invoking := "inv", invoked := "done",
    description := "d", prefersBorder := true }

/-- The tool used by the C3 witness: it carries its own metadata,
including a conflicting `openai/outputTemplate` key, and links the
widget. -/
def c3Tool : ToolDef :=
  { description := "with widget",
    meta := [("openai/outputTemplate", .str "own"), ("own", .num 1)],
    widget := some c3Widget,
    handler := some fun _ => ToolOutcome.ret (.str "hi") }

/-- The server used by the C3 witness. -/
def c3Server : MCPServer := { name := "s", version := "1", tools := [("t", c3Tool)] }

/-- C5 counterexample widget registered first, whose id strictly contains
the other id. -/
def c5widgetA : Widget :=
  { id := "supergreeting", name := "A", invoking := "i", invoked := "d",
    description := "x", prefersBorder := false }

/-- C5 widget with id "greeting". -/
def c5widgetB : Widget :=
  { id := "greeting", name := "B", invoking := "i", invoked := "d",
    description := "y", prefersBorder := false }

/-- C5 counterexample server: both widgets, the containing id first. -/
def c5Server : MCPServer :=
  { name := "s", version := "1", widgets := [("a", c5widgetA), ("b", c5widgetB)] }

/-- C5 witness server: only the widget with id "greeting". -/
def c5wServer : MCPServer :=
  { name := "s", version := "1", widgets := [("g", c5widgetB)] }

/-- The handler used by the C6 witness: it returns a string, a binary
payload or another value depending on the requested uri. -/
def c6handler : String → String → ResReturn := fun u _ =>
  if u = "res://s" then .str "hello"
  else if u = "res://b" then .bin .blob "QUJD"
  else .other (.num 3)

/-- A C6 resource with no declared mime type. -/
def c6res : ResourceDef := { name := "r", handler := some c6handler }

/-- A C6 resource with a declared mime type. -/
def c6resTyped : ResourceDef :=
  { name := "r2", mimeType := some "text/plain", handler := some c6handler }

/-- C7 witness resource with a literal uri. -/
def c7resA : ResourceDef :=
  { name := "a", uri := some "file:///a", handler := some fun _ _ => ResReturn.str "A" }

/-- C7 witness resource whose uri is a template. -/
def c7resT : ResourceDef :=
  { name := "t", uri := some "tmpl://{x}/y", handler := some fun _ _ => ResReturn.str "T" }

/-- C7 witness server with a literal and a template resource. -/
def c7Server : MCPServer :=
  { name := "s", version := "1", resources := [("a", c7resA), ("t", c7resT)] }

/-- C7 witness server with only the literal resource. -/
def c7ServerNT : MCPServer :=
  { name := "s", version := "1", resources := [("a", c7resA)] }

/-- The handler used by the C9 witness: its returned text records whether
it received an input value. -/
def c9handler : Option JVal → ToolOutcome := fun input =>
  match input with
  | none => ToolOutcome.ret (.str "input-undefined")
  | some _ => ToolOutcome.ret (.str "input-present")

/-- A schemaless tool built on `c9handler`. -/
def c9Tool : ToolDef := { description := "no schema", handler := some c9handler }

/-- A server registering `c9Tool` under `"t"`. -/
def c9Server : MCPServer := { name := "s", version := "1", tools := [("t", c9Tool)] }

/-- The schema used by the C10 witness prompt and tool: validation throws
a plain `Error`. -/
def c10schema : Schema := { validate := fun _ => .error (.jsError "bad") }

/-- The prompt used by the C10 witness: it carries `c10schema`, so its
`'~validate'` throws a plain `Error`. -/
def c10prompt : PromptDef :=
  { description := "p", schema := some c10schema,
    handler := some fun _ _ => PromptOutcome.ret (.out { text := "x" }) }

/-- The C10 witness tool carrying `c10schema`. -/
def c10tool : ToolDef := { description := "t", schema := some c10schema }

/-- The C10 witness server. -/
def c10Server : MCPServer :=
  { name := "s", version := "1",
    prompts := [("p", c10prompt)], tools := [("t", c10tool)] }

/-!
Helper lemmas about metadata lookup, `List.find?` and string prefixes.
-/

theorem metaLookup_append (a b : Meta) (k : String) :
    metaLookup (a ++ b) k =
      match metaLookup b k with
      | some v => some v
      | none => metaLookup a k := by
  induction a with
  | nil => simp [metaLookup]; cases metaLookup b k <;> rfl
  | cons p rest ih =>
    simp only [List.cons_append, metaLookup]
    rw [show rest.append b = rest ++ b from rfl, ih]
    cases hb : metaLookup b k <;> cases hr : metaLookup rest k <;> simp

theorem find?_eq_get {α : Type} (l : List α) (p : α → Bool) (i : Fin l.length)
    (hp : p (l.get i) = true)
    (hmin : ∀ j : Fin l.length, (j : Nat) < (i : Nat) → p (l.get j) = false) :
    l.find? p = some (l.get i) := by
  induction l with
  | nil => exact absurd i.isLt (by simp)
  | cons x xs ih =>
    cases i using Fin.cases with
    | zero =>
      simp at hp
      simp [List.find?, hp]
    | succ i =>
      have hx : p x = false := hmin ⟨0, by simp⟩ (by simp)
      simp [List.find?, hx]
      exact ih i (by simpa using hp) (fun j hj => by
        have := hmin j.succ (by simpa using Nat.succ_lt_succ hj)
        simpa using this)

theorem find?_of_exists {α : Type} (l : List α) (p : α → Bool) (a : α)
    (ha : a ∈ l) (hp : p a = true) :
    ∃ b, l.find? p = some b ∧ p b = true := by
  induction l with
  | nil => cases ha
  | cons x xs ih =>
    by_cases hx : p x = true
    · exact ⟨x, by simp [List.find?, hx], hx⟩
    · have hx2 : p x = false := by simpa using hx
      rcases List.mem_cons.mp ha with rfl | hmem
      · exact absurd hp hx
      · rcases ih hmem with ⟨b, hb, hpb⟩
        exact ⟨b, by simp [List.find?, hx2, hb], hpb⟩

theorem find?_eq_none_of_all {α : Type} (l : List α) (p : α → Bool)
    (h : ∀ a ∈ l, p a = false) : l.find? p = none :=
  List.find?_eq_none.mpr fun a ha => by simp [h a ha]

theorem isPrefixOf_self_append {α : Type} [DecidableEq α] (l r : List α) :
    l.isPrefixOf (l ++ r) = true := by
  induction l with
  | nil => simp [List.isPrefixOf]
  | cons a as ih => simp [List.isPrefixOf, ih]

theorem strStartsWith_append (p rest : String) : strStartsWith (p ++ rest) p = true := by
  simp only [strStartsWith]
  rw [show (p ++ rest).data = p.data ++ rest.data from String.data_append p rest]
  exact isPrefixOf_self_append p.data rest.data

theorem jsOrS_idem (x d d2 : String) (hd : d ≠ "") :
    jsOrS (some (jsOrS (some x) d)) d2 = jsOrS (some x) d := by
  by_cases hx : x = "" <;> simp [jsOrS, hx, hd]

/-!
The claim theorems, their witnesses and counterexamples.
-/

/-- C1: the claim says an unresolved method path ("foo/bar") or a
non-callable leaf ("tools") yields METHOD_NOT_FOUND.  The code instead
returns INTERNAL_ERROR: the resolution loop keeps the current handler
value on a missed segment, so the table object itself is invoked and the
resulting TypeError is caught as INTERNAL_ERROR; the METHOD_NOT_FOUND
guard after the loop can never fire. -/
theorem c1_unresolved_method_yields_internal_error :
    ((handleMCP sampleServer "http://o" "fresh"
        { method := .POST, body := some { method := "foo/bar", id := .num 1 } }).body
      = RespBody.rpcError (mcpCodeNum .INTERNAL_ERROR) "Internal error" none)
    ∧ ((handleMCP sampleServer "http://o" "fresh"
        { method := .POST, body := some { method := "tools", id := .num 1 } }).body
      = RespBody.rpcError (mcpCodeNum .INTERNAL_ERROR) "Internal error" none)
    ∧ ((handleMCP sampleServer "http://o" "fresh"
        { method := .POST, body := some { method := "foo/bar", id := .num 1 } }).body
      ≠ RespBody.rpcError (mcpCodeNum .METHOD_NOT_FOUND)
          (defaultErrorMessage .METHOD_NOT_FOUND) none) :=
  ⟨rfl, rfl, by decide⟩

/-- C2 counterexample: a handler that throws an `Error` whose message is
the empty string produces the text block "Unknown error", not the
exception's message. -/
theorem c2_counterexample_empty_message :
    c2emptyTool.handler = some c2emptyHandler
    ∧ c2emptyHandler none = ToolOutcome.thrown (Thrown.jsError "")
    ∧ toolsCall c2emptyServer "sid" (some "t") none
        = .ok { content := [ContentBlock.text "Unknown error"], isError := some true }
    ∧ ("Unknown error" : String) ≠ "" :=
  ⟨rfl, rfl, rfl, by decide⟩

/-- C2 (amended): a handler throw other than the `ToolError` sentinel
always becomes a normal `CallToolResult` with `isError:true` whose single
text block carries the thrown `Error`'s message when that message is
non-empty and the fallback "Unknown error" otherwise; `tools/call` then
returns it as a success value, never as a protocol-level error. -/
theorem c2_handler_throw_gives_isError_result (t : ToolDef) (input : Option JVal)
    (hfun : Option JVal → ToolOutcome) (th : Thrown)
    (hh : t.handler = some hfun) (hthrow : hfun input = ToolOutcome.thrown th)
    (hns : ∀ m, th ≠ Thrown.toolErr m) :
    toolCall t input =
      { content := [ContentBlock.text (jsOrS (thrownMessage th) "Unknown error")],
        isError := some true }
    ∧ ∀ (srv : MCPServer) (sid n : String) (args : Option JVal),
        lookupReg srv.tools (some n) = some t →
        toolValidate t args = .ok input →
        srv.tools.isEmpty = false →
        ∃ r, toolsCall srv sid (some n) args = .ok r ∧ r.isError = some true := by
  have hcall : toolCall t input =
      { content := [ContentBlock.text (jsOrS (thrownMessage th) "Unknown error")],
        isError := some true } := by
    cases th with
    | toolErr m => exact absurd rfl (hns m)
    | jsError m =>
      simp only [toolCall, hh, hthrow, toolErrorResult, thrownMessage]
      rw [jsOrS_idem m "Unknown error" _ (by decide)]
    | mcpErr e =>
      simp only [toolCall, hh, hthrow, toolErrorResult, thrownMessage]
      rw [jsOrS_idem e.message "Unknown error" _ (by decide)]
    | nonError =>
      simp [toolCall, hh, hthrow, toolErrorResult, thrownMessage, jsOrS]
  refine ⟨hcall, fun srv sid n args hlook hval hne => ?_⟩
  simp only [toolsCall, hne, Bool.false_eq_true, if_false, hlook, hval]
  cases hw : t.widget with
  | none => exact ⟨_, rfl, by rw [hcall]⟩
  | some w => exact ⟨_, rfl, by rw [hcall]⟩

/-- C2 witness: the amended theorem applied to a tool whose handler throws
an `Error` with message "boom". -/
theorem c2_witness :
    toolCall c2boomTool none
      = { content := [ContentBlock.text "boom"], isError := some true }
    ∧ ∃ r, toolsCall c2boomServer "sid" (some "t") (some (.num 3)) = .ok r
        ∧ r.isError = some true := by
  have h := c2_handler_throw_gives_isError_result c2boomTool none c2boomHandler
    (.jsError "boom") rfl rfl (fun m hm => by cases hm)
  exact ⟨h.1, h.2 c2boomServer "sid" "t" (some (.num 3)) rfl rfl rfl⟩

/-- C3: for a tool linked to a widget, both the `tools/list` descriptor
`_meta` and every `tools/call` result `_meta` are the tool's own metadata
spread first and the widget's tool metadata spread second (widget keys win
on conflict), and in particular carry
`openai/outputTemplate = widget://{id}.js`. -/
theorem c3_widget_metadata_merged (t : ToolDef) (w : Widget) (hw : t.widget = some w) :
    (∀ n k, metaLookup (defineTool n t).meta k =
      match metaLookup w.toolMetadata k with
      | some v => some v
      | none => metaLookup t.meta k)
    ∧ (∀ n, metaLookup (defineTool n t).meta "openai/outputTemplate"
        = some (JVal.str ("widget://" ++ w.id ++ ".js")))
    ∧ (∀ (srv : MCPServer) (sid n : String) (args : Option JVal) (r : CallToolResult),
        lookupReg srv.tools (some n) = some t →
        toolsCall srv sid (some n) args = .ok r →
        (∀ k, (metaLookup w.toolMetadata k).isSome →
          metaLookup r.meta k = metaLookup w.toolMetadata k)
        ∧ metaLookup r.meta "openai/outputTemplate"
            = some (JVal.str ("widget://" ++ w.id ++ ".js"))) := by
  have hout : metaLookup w.toolMetadata "openai/outputTemplate"
      = some (JVal.str ("widget://" ++ w.id ++ ".js")) := rfl
  have hdesc : ∀ n k, metaLookup (defineTool n t).meta k =
      match metaLookup w.toolMetadata k with
      | some v => some v
      | none => metaLookup t.meta k := by
    intro n k
    simp only [defineTool, hw]
    exact metaLookup_append t.meta w.toolMetadata k
  refine ⟨hdesc, fun n => ?_, ?_⟩
  · rw [hdesc n "openai/outputTemplate", hout]
  · intro srv sid n args r hlook hcall
    by_cases hemp : srv.tools.isEmpty
    · simp [toolsCall, hemp] at hcall
    · simp only [toolsCall, hemp, Bool.false_eq_true, if_false, hlook] at hcall
      cases hval : toolValidate t args with
      | error th =>
        cases th <;> simp [hval] at hcall
      | ok v =>
        simp only [hval, hw] at hcall
        have hr : r = { toolCall t v with meta := (toolCall t v).meta ++ w.toolMetadata } :=
          (Except.ok.inj hcall).symm
        subst hr
        constructor
        · intro k hk
          rw [metaLookup_append]
          rcases hks : metaLookup w.toolMetadata k with _ | v2
          · rw [hks] at hk; cases hk
          · rfl
        · rw [metaLookup_append, hout]

/-- C3 witness: the theorem instantiated on a concrete widget-linked tool
whose own metadata conflicts on `openai/outputTemplate`; the widget key
wins in the descriptor and in the call result. -/
theorem c3_witness :
    metaLookup (defineTool "t" c3Tool).meta "openai/outputTemplate"
      = some (JVal.str "widget://greeting.js")
    ∧ ∃ r, toolsCall c3Server "sid" (some "t") none = .ok r
        ∧ metaLookup r.meta "openai/outputTemplate" = some (JVal.str "widget://greeting.js") := by
  have h := c3_widget_metadata_merged c3Tool c3Widget rfl
  refine ⟨by simpa using h.2.1 "t", ⟨_, rfl, ?_⟩⟩
  simpa using (h.2.2 c3Server "sid" "t" none _ rfl rfl).2

/-- C4: every listing or invocation method whose governing registry is
empty returns METHOD_NOT_FOUND: tools/list and tools/call with zero tools,
prompts/list and prompts/get with zero prompts, resources/templates/list
with zero resources, and resources/list and resources/read with zero
resources and zero widgets. -/
theorem c4_empty_registry_gating (srv : MCPServer) (sid domain : String) :
    (srv.tools.isEmpty = true →
      toolsList srv = .error (mcpError .METHOD_NOT_FOUND)
      ∧ ∀ n args, toolsCall srv sid n args = .error (mcpError .METHOD_NOT_FOUND))
    ∧ (srv.prompts.isEmpty = true →
      promptsList srv = .error (mcpError .METHOD_NOT_FOUND)
      ∧ ∀ n args, promptsGet srv sid n args = .ok (.error (mcpError .METHOD_NOT_FOUND)))
    ∧ (srv.resources.isEmpty = true →
      templatesList srv = .error (mcpError .METHOD_NOT_FOUND))
    ∧ (srv.resources.isEmpty = true → srv.widgets.isEmpty = true →
      resourcesList srv domain = .error (mcpError .METHOD_NOT_FOUND)
      ∧ ∀ uri, resourcesRead srv domain sid uri = .error (mcpError .METHOD_NOT_FOUND)) := by
  refine ⟨fun h => ⟨?_, fun n args => ?_⟩, fun h => ⟨?_, fun n args => ?_⟩,
    fun h => ?_, fun h hw => ⟨?_, fun uri => ?_⟩⟩ <;>
    simp [toolsList, toolsCall, promptsList, promptsGet, templatesList,
      resourcesList, resourcesRead, h, *]

/-- C4 witness: the theorem instantiated on the empty server. -/
theorem c4_witness :
    toolsList emptyServer = .error (mcpError .METHOD_NOT_FOUND)
    ∧ toolsCall emptyServer "s" (some "x") none = .error (mcpError .METHOD_NOT_FOUND)
    ∧ promptsList emptyServer = .error (mcpError .METHOD_NOT_FOUND)
    ∧ promptsGet emptyServer "s" (some "x") none = .ok (.error (mcpError .METHOD_NOT_FOUND))
    ∧ templatesList emptyServer = .error (mcpError .METHOD_NOT_FOUND)
    ∧ resourcesList emptyServer "d" = .error (mcpError .METHOD_NOT_FOUND)
    ∧ resourcesRead emptyServer "d" "s" "file:///x" = .error (mcpError .METHOD_NOT_FOUND) := by
  have h := c4_empty_registry_gating emptyServer "s" "d"
  exact ⟨(h.1 rfl).1, (h.1 rfl).2 (some "x") none, (h.2.1 rfl).1,
    (h.2.1 rfl).2 (some "x") none, h.2.2.1 rfl, (h.2.2.2 rfl rfl).1,
    (h.2.2.2 rfl rfl).2 "file:///x"⟩

/-- C5 counterexample: with widgets "supergreeting" (registered first) and
"greeting", reading `widget://greeting.js` resolves to the widget
"supergreeting" — not to the widget with identifier "greeting", as the
claim requires. -/
theorem c5_counterexample_substring_match :
    resourcesRead c5Server "http://d" "sid" ("widget://" ++ c5widgetB.id ++ ".js")
      = .ok (c5widgetA.result "http://d")
    ∧ (c5widgetA.result "http://d").contents.map (fun c => c.uri)
        = ["widget://supergreeting"]
    ∧ c5widgetA.id ≠ c5widgetB.id :=
  ⟨rfl, rfl, by decide⟩

/-- C5 (amended): reading `widget://{id}.js` for a registered widget id
resolves to the FIRST registered widget whose identifier contains the
token stripped from the uri (`uri.split('//')[1].split('.')[0]`) as a
substring — that widget need not be the one with identifier id — and the
returned `ReadResourceResult` has a single content entry with mimeType
`text/html+skybridge`. -/
theorem c5_widget_read_first_substring_match (srv : MCPServer)
    (domain sid k : String) (w0 : Widget)
    (hmem : (k, w0) ∈ srv.widgets)
    (hmatch : strIncludes w0.id (stripWidgetToken ("widget://" ++ w0.id ++ ".js")) = true) :
    ∃ n w, srv.widgets.find?
        (fun p => strIncludes p.2.id (stripWidgetToken ("widget://" ++ w0.id ++ ".js")))
        = some (n, w)
      ∧ resourcesRead srv domain sid ("widget://" ++ w0.id ++ ".js") = .ok (w.result domain)
      ∧ (w.result domain).contents.map (fun c => c.mimeType)
          = [some "text/html+skybridge"] := by
  have hne : srv.widgets.isEmpty = false := by
    cases hsw : srv.widgets with
    | nil => rw [hsw] at hmem; cases hmem
    | cons a l => rfl
  have hstart : strStartsWith ("widget://" ++ w0.id ++ ".js") "widget://" = true := by
    rw [String.append_assoc]
    exact strStartsWith_append "widget://" (w0.id ++ ".js")
  rcases find?_of_exists srv.widgets
      (fun p => strIncludes p.2.id (stripWidgetToken ("widget://" ++ w0.id ++ ".js")))
      (k, w0) hmem hmatch with ⟨b, hb, hpb⟩
  refine ⟨b.1, b.2, by rwa [show (b.1, b.2) = b from rfl], ?_, by simp [Widget.result]⟩
  simp [resourcesRead, hne, hstart, hb]

/-- C5 witness: the amended theorem applied to a server with the single
widget "greeting". -/
theorem c5_witness :
    ∃ n w, c5wServer.widgets.find?
        (fun p => strIncludes p.2.id (stripWidgetToken ("widget://" ++ c5widgetB.id ++ ".js")))
        = some (n, w)
      ∧ resourcesRead c5wServer "http://d" "sid" ("widget://" ++ c5widgetB.id ++ ".js")
          = .ok (w.result "http://d")
      ∧ (w.result "http://d").contents.map (fun c => c.mimeType)
          = [some "text/html+skybridge"] :=
  c5_widget_read_first_substring_match c5wServer "http://d" "sid" "g" c5widgetB
    (List.mem_singleton.mpr rfl) (by decide)

/-- C6: for a resource read, a string handler return yields a single text
entry tagged with the resource's declared MIME type; a binary return with
no declared MIME type yields INTERNAL_ERROR; any other return shape
yields RESOURCE_NOT_FOUND. -/
theorem c6_resource_return_shapes (r : ResourceDef) (hfun : String → String → ResReturn)
    (uri sid : String) (hh : r.handler = some hfun) :
    (∀ s, hfun uri sid = .str s →
      resourceCall r uri sid
        = .ok { contents := [{ uri := uri, mimeType := r.mimeType, text := s }] })
    ∧ (∀ kind b64, hfun uri sid = .bin kind b64 → r.mimeType = none →
      resourceCall r uri sid
        = .error { code := .INTERNAL_ERROR, message := "Resource mimeType not set",
                   data := some (.str uri) })
    ∧ (∀ v, hfun uri sid = .other v →
      resourceCall r uri sid = .error (mcpError .RESOURCE_NOT_FOUND)) := by
  refine ⟨fun s hret => ?_, fun kind b64 hret hmt => ?_, fun v hret => ?_⟩
  · simp [resourceCall, hh, hret]
  · simp [resourceCall, hh, hret, hmt]
  · simp [resourceCall, hh, hret]

/-- C6 witness: the theorem applied to concrete resources at the three
return shapes. -/
theorem c6_witness :
    resourceCall c6resTyped "res://s" "sid"
      = .ok { contents := [{ uri := "res://s", mimeType := some "text/plain", text := "hello" }] }
    ∧ resourceCall c6res "res://b" "sid"
      = .error { code := .INTERNAL_ERROR, message := "Resource mimeType not set",
                 data := some (.str "res://b") }
    ∧ resourceCall c6res "res://o" "sid" = .error (mcpError .RESOURCE_NOT_FOUND) := by
  have h1 := (c6_resource_return_shapes c6resTyped c6handler "res://s" "sid" rfl).1 "hello" rfl
  have h2 := (c6_resource_return_shapes c6res c6handler "res://b" "sid" rfl).2.1 .blob "QUJD" rfl rfl
  have h3 := (c6_resource_return_shapes c6res c6handler "res://o" "sid" rfl).2.2 (.num 3) rfl
  exact ⟨h1, h2, h3⟩

/-- C7: a `resources/read` whose uri is not `widget://`-schemed (on a
server passing the emptiness gate) dispatches to the first resource whose
configured uri equals the request uri exactly; failing that, to the first
resource whose configured uri contains a brace-delimited placeholder —
with no requirement that the request uri structurally matches that
template; failing both, it returns RESOURCE_NOT_FOUND. -/
theorem c7_read_resolution_order (srv : MCPServer) (domain sid uri : String)
    (hscheme : strStartsWith uri "widget://" = false)
    (hgate : srv.resources.isEmpty = false ∨ srv.widgets.isEmpty = false) :
    (∀ i : Fin srv.resources.length,
      ((srv.resources.get i).2.uri == some uri) = true →
      (∀ j : Fin srv.resources.length, (j : Nat) < (i : Nat) →
        ((srv.resources.get j).2.uri == some uri) = false) →
      resourcesRead srv domain sid uri = resourceCall (srv.resources.get i).2 uri sid)
    ∧ ((∀ p ∈ srv.resources, (p.2.uri == some uri) = false) →
      (∀ i : Fin srv.resources.length,
        isTemplate (jsOrS (srv.resources.get i).2.uri "") = true →
        (∀ j : Fin srv.resources.length, (j : Nat) < (i : Nat) →
          isTemplate (jsOrS (srv.resources.get j).2.uri "") = false) →
        resourcesRead srv domain sid uri = resourceCall (srv.resources.get i).2 uri sid))
    ∧ ((∀ p ∈ srv.resources, (p.2.uri == some uri) = false) →
      (∀ p ∈ srv.resources, isTemplate (jsOrS p.2.uri "") = false) →
      resourcesRead srv domain sid uri = .error (mcpError .RESOURCE_NOT_FOUND)) := by
  have hgate2 : ¬(srv.resources.isEmpty = true ∧ srv.widgets.isEmpty = true) := by
    rcases hgate with h | h <;> simp [h]
  refine ⟨fun i hp hmin => ?_, fun hnoex i hp hmin => ?_, fun hnoex hnotmpl => ?_⟩
  · have hfind := find?_eq_get srv.resources (fun p => p.2.uri == some uri) i hp hmin
    simp [resourcesRead, hgate2, hscheme, hfind]
    intro h1 h2
    rcases hgate with h | h <;> simp [h1, h2] at h
  · have hnone := find?_eq_none_of_all srv.resources (fun p => p.2.uri == some uri)
      hnoex
    have hfind := find?_eq_get srv.resources
      (fun p => isTemplate (jsOrS p.2.uri "")) i hp hmin
    simp [resourcesRead, hgate2, hscheme, hnone, hfind]
    intro h1 h2
    rcases hgate with h | h <;> simp [h1, h2] at h
  · have hnone := find?_eq_none_of_all srv.resources (fun p => p.2.uri == some uri)
      hnoex
    have hnone2 := find?_eq_none_of_all srv.resources
      (fun p => isTemplate (jsOrS p.2.uri "")) hnotmpl
    simp [resourcesRead, hgate2, hscheme, hnone, hnone2]
    intro h1 h2
    rcases hgate with h | h <;> simp [h1, h2] at h

/-- C7 witness: exact match, template fallback on a structurally
unrelated uri, and the no-match error, each via the theorem. -/
theorem c7_witness :
    resourcesRead c7Server "d" "sid" "file:///a"
      = .ok { contents := [{ uri := "file:///a", mimeType := none, text := "A" }] }
    ∧ resourcesRead c7Server "d" "sid" "zzz://nomatch"
      = .ok { contents := [{ uri := "zzz://nomatch", mimeType := none, text := "T" }] }
    ∧ resourcesRead c7ServerNT "d" "sid" "zzz://nomatch"
      = .error (mcpError .RESOURCE_NOT_FOUND) := by
  have h1 := (c7_read_resolution_order c7Server "d" "sid" "file:///a"
    (by decide) (Or.inl rfl)).1 ⟨0, by decide⟩ (by decide) (by decide)
  have h2 := (c7_read_resolution_order c7Server "d" "sid" "zzz://nomatch"
    (by decide) (Or.inl rfl)).2.1 (by decide) ⟨1, by decide⟩ (by decide) (by decide)
  have h3 := (c7_read_resolution_order c7ServerNT "d" "sid" "zzz://nomatch"
    (by decide) (Or.inl rfl)).2.2 (by decide) (by decide)
  exact ⟨h1.trans rfl, h2.trans rfl, h3⟩

/-- C8 counterexample: the GET/DELETE method-not-allowed rejection carries
no `Mcp-Session-Id` header at all (it is produced before the session id is
even computed). -/
theorem c8_counterexample_get_lacks_session_header :
    (handleMCP emptyServer "http://o" "fresh" { method := .GET }).headers
      = [("Content-Type", "application/json")]
    ∧ (handleMCP emptyServer "http://o" "fresh" { method := .GET }).headers.find?
        (fun h => h.1 == "Mcp-Session-Id") = none
    ∧ (handleMCP emptyServer "http://o" "fresh" { method := .GET }).status = 405 :=
  ⟨rfl, rfl, rfl⟩

/-- C8 (amended): every response of the POST path — success envelopes,
JSON-RPC error envelopes, and the parse-error response — carries the
`Mcp-Session-Id` header echoing the caller-supplied (non-empty) header or
the freshly generated id; the GET/DELETE method-not-allowed rejection
carries no session header. -/
theorem c8_session_header_on_post_responses (srv : MCPServer) (origin fresh : String)
    (req : HttpRequest) :
    (req.method = .POST →
      (handleMCP srv origin fresh req).headers =
        [("Content-Type", "application/json"),
         ("Mcp-Session-Id", jsOrS req.sessionHeader fresh)])
    ∧ (req.method = .GET ∨ req.method = .DELETE →
      (handleMCP srv origin fresh req).headers.find?
        (fun h => h.1 == "Mcp-Session-Id") = none) := by
  constructor
  · intro hm
    rcases req with ⟨m, sess, body⟩
    cases hm
    cases body with
    | none => rfl
    | some rpc =>
      simp only [handleMCP]
      rcases hinv : invokeNode
        (resolveMethod (mpcHandler srv (jsOrS srv.domain origin) (jsOrS sess fresh))
          (jsSplitChar rpc.method '/')) rpc.params with th | r2
      · rfl
      · cases r2 <;> rfl
  · intro hm
    rcases hm with hm | hm <;> rw [show handleMCP srv origin fresh req
        = handleGetDeleteMethodNotAllowed by rw [handleMCP, hm]] <;> rfl

/-- C8 witness: the amended theorem at a POST parse-error request with a
caller-supplied session id, and at a GET request. -/
theorem c8_witness :
    (handleMCP emptyServer "o" "fresh"
      { method := .POST, sessionHeader := some "sess", body := none }).headers
      = [("Content-Type", "application/json"), ("Mcp-Session-Id", "sess")]
    ∧ (handleMCP emptyServer "o" "fresh" { method := .DELETE }).headers.find?
        (fun h => h.1 == "Mcp-Session-Id") = none := by
  have h1 := (c8_session_header_on_post_responses emptyServer "o" "fresh"
    { method := .POST, sessionHeader := some "sess", body := none }).1 rfl
  have h2 := (c8_session_header_on_post_responses emptyServer "o" "fresh"
    { method := .DELETE }).2 (Or.inr rfl)
  exact ⟨by simpa [jsOrS] using h1, h2⟩

/-- C9: for a tool configured without an input schema, validation returns
undefined for any supplied arguments, and `tools/call` behaves identically
whatever `params.arguments` holds — the handler is invoked with undefined
input, never the caller's arguments. -/
theorem c9_no_schema_ignores_arguments (t : ToolDef) (hs : t.schema = none) :
    (∀ args, toolValidate t args = .ok none)
    ∧ (∀ (srv : MCPServer) (sid n : String) (args : Option JVal),
        lookupReg srv.tools (some n) = some t →
        toolsCall srv sid (some n) args = toolsCall srv sid (some n) none) := by
  constructor
  · intro args; simp [toolValidate, hs]
  · intro srv sid n args hlook
    by_cases hemp : srv.tools.isEmpty = true <;>
      simp [toolsCall, hemp, hlook, toolValidate, hs]

/-- C9 witness: the theorem applied to a concrete schemaless tool; a call
supplying arguments produces the handler branch for undefined input. -/
theorem c9_witness :
    toolValidate c9Tool (some (.num 5)) = .ok none
    ∧ toolsCall c9Server "sid" (some "t") (some (.num 5))
        = toolsCall c9Server "sid" (some "t") none
    ∧ toolsCall c9Server "sid" (some "t") (some (.num 5))
        = .ok { content := [ContentBlock.text "input-undefined"] } := by
  have h := c9_no_schema_ignores_arguments c9Tool rfl
  exact ⟨h.1 (some (.num 5)), h.2 c9Server "sid" "t" (some (.num 5)) rfl, rfl⟩

/-- C10: a validation throw that is not an `MCPError` maps to
INTERNAL_ERROR on `prompts/get` but to INVALID_PARAMS on `tools/call`. -/
theorem c10_validation_throw_error_codes (srv : MCPServer) (sid : String) :
    (∀ (n : String) (p : PromptDef) (th : Thrown) (args : Option JVal),
      lookupReg srv.prompts (some n) = some p →
      srv.prompts.isEmpty = false →
      promptValidate p args = .error th → (∀ e, th ≠ .mcpErr e) →
      promptsGet srv sid (some n) args = .ok (.error (mcpError .INTERNAL_ERROR)))
    ∧ (∀ (n : String) (t : ToolDef) (th : Thrown) (args : Option JVal),
      lookupReg srv.tools (some n) = some t →
      srv.tools.isEmpty = false →
      toolValidate t args = .error th → (∀ e, th ≠ .mcpErr e) →
      toolsCall srv sid (some n) args = .error (mcpError .INVALID_PARAMS)) := by
  constructor
  · intro n p th args hlook hne hv hnm
    cases th with
    | mcpErr e => exact absurd rfl (hnm e)
    | jsError m => simp [promptsGet, hne, hlook, hv]
    | toolErr m => simp [promptsGet, hne, hlook, hv]
    | nonError => simp [promptsGet, hne, hlook, hv]
  · intro n t th args hlook hne hv hnm
    cases th with
    | mcpErr e => exact absurd rfl (hnm e)
    | jsError m => simp [toolsCall, hne, hlook, hv]
    | toolErr m => simp [toolsCall, hne, hlook, hv]
    | nonError => simp [toolsCall, hne, hlook, hv]

/-- C10 witness: the theorem applied to a concrete prompt and tool whose
validators throw a plain `Error`. -/
theorem c10_witness :
    promptsGet c10Server "sid" (some "p") none = .ok (.error (mcpError .INTERNAL_ERROR))
    ∧ toolsCall c10Server "sid" (some "t") none = .error (mcpError .INVALID_PARAMS) := by
  have h := c10_validation_throw_error_codes c10Server "sid"
  exact ⟨h.1 "p" c10prompt (.jsError "bad") none rfl rfl rfl (fun e he => by cases he),
    h.2 "t" c10tool (.jsError "bad") none rfl rfl rfl (fun e he => by cases he)⟩

end WidgetKit
